import Mathlib

/-!
# Verification of the conversation lifecycle core of the climate-belief study backend

This file shallowly embeds the conversation lifecycle manager of the study
backend (`src/database.js` server part and `src/lib/dataAccess.js`): the
in-memory open-session tracker, the JSON-file persistence of conversation
records, the turn-submission endpoint `POST /api/conversations/:id/message`,
the explicit end endpoint `POST /api/conversations/:id/end`, the start
endpoints (`POST /api/conversations/start` and the fallback `POST /chat/start`),
the termination-phrase detector `shouldEndNow`, the summary safety net
(`fallbackEnsureConversationSummary` and friends), and the reply generator
`generateAIResponse` with its intelligent fallback.

Timestamps are natural numbers (milliseconds since the epoch); `Date`
subtraction followed by `Math.floor(x / 1000)` becomes truncated natural
division.  JavaScript `Map` objects and the JSON-file directories become
association lists keyed by id.  Asynchronous calls that can resolve or
reject (the OpenAI completion, the reply-generation step of a turn) are
passed in as explicit outcome values.
-/

namespace ClimateStudy

/-! ## JavaScript string primitives -/

/-- The whitespace characters recognised by `String.prototype.trim` and the
regex class `\s` (restricted to the ASCII controls and space actually used by
the inputs of this system). -/
def isJsWhitespace (c : Char) : Bool :=
  c == ' ' || c == '\t' || c == '\n' || c == '\r' || c == '\x0b' || c == '\x0c'

/-- `text.trim()` on a character list. -/
def jsTrimList (s : List Char) : List Char :=
  ((s.dropWhile isJsWhitespace).reverse.dropWhile isJsWhitespace).reverse

/-- `text.trim()`. -/
def jsTrim (s : String) : String := ⟨jsTrimList s.data⟩

/-- `text.toLowerCase()` (the inputs here are ASCII). -/
def jsToLower (s : String) : String := ⟨s.data.map Char.toLower⟩

/-- Does `s` start with the character sequence `pat` (exact characters)?
Used to embed `String.prototype.includes` and the case-sensitive regexes. -/
def leadsWith : List Char → List Char → Bool
  | [], _ => true
  | _ :: _, [] => false
  | p :: ps, c :: cs => p == c && leadsWith ps cs

/-- Does `pat` occur as a contiguous sublist of `s`? -/
def hasSubList (pat : List Char) : List Char → Bool
  | [] => pat.isEmpty
  | c :: cs => leadsWith pat (c :: cs) || hasSubList pat cs

/-- `s.includes(pat)`. -/
def strIncludes (s pat : String) : Bool := hasSubList pat.data s.data

/-- `s.toLowerCase().includes(pat)`. -/
def lowerIncludes (s pat : String) : Bool := hasSubList pat.data (s.data.map Char.toLower)

/-- `s.substring(0, n)`. -/
def jsSubstring (s : String) (n : Nat) : String := ⟨s.data.take n⟩

/-- The regex word-character class `\w` = `[A-Za-z0-9_]`. -/
def isWordChar (c : Char) : Bool := c.isAlpha || c.isDigit || c == '_'

/-! ## The termination-phrase detector (`shouldEndNow`, src/database.js:1880) -/

/-- The fixed early-termination phrase of `/\bend the chat\b/i`. -/
def endPhrase : List Char := "end the chat".data

/-- Case-insensitive `leadsWith`, for the `i` regex flag. -/
def ciLeadsWith : List Char → List Char → Bool
  | [], _ => true
  | _ :: _, [] => false
  | p :: ps, c :: cs => p.toLower == c.toLower && ciLeadsWith ps cs

/-- A `\b` boundary against the character preceding the match position
(`none` is the start of the string). -/
def headBoundary : Option Char → Bool
  | none => true
  | some c => !isWordChar c

/-- A `\b` boundary against the rest of the string after the match. -/
def tailBoundary : List Char → Bool
  | [] => true
  | c :: _ => !isWordChar c

/-- Does `/end the chat/i` match at the head of `s`, with a `\b` boundary
after the match? -/
def matchHere (s : List Char) : Bool :=
  ciLeadsWith endPhrase s && tailBoundary (s.drop endPhrase.length)

/-- Scan of `/\bend the chat\b/i.test`: try every position, carrying the
previous character for the left `\b` boundary. -/
def scanEndPhrase (prev : Option Char) : List Char → Bool
  | [] => false
  | c :: cs => (headBoundary prev && matchHere (c :: cs)) || scanEndPhrase (some c) cs

/-- `shouldEndNow(text)` (src/database.js:1880): `/\bend the chat\b/i.test(text.trim())`.
(`if (!text) return false` is subsumed: the scan of an empty list is `false`.) -/
def shouldEndNow (text : String) : Bool :=
  scanEndPhrase none (jsTrimList text.data)

/-! ## Association-list maps

`activeConversations` is a JavaScript `Map`; the conversation and participant
JSON directories are keyed by id.  All three become association lists. -/

/-- `map.get(k)` / `readJson` of the file keyed by `k`. -/
def mapGet (m : List (String × α)) (k : String) : Option α := m.lookup k

/-- `map.set(k, v)` / `writeJson` of the file keyed by `k` (upsert). -/
def mapSet (m : List (String × α)) (k : String) (v : α) : List (String × α) :=
  (k, v) :: m.filter (fun p => p.1 != k)

/-- `map.delete(k)`. -/
def mapDelete (m : List (String × α)) (k : String) : List (String × α) :=
  m.filter (fun p => p.1 != k)

/-! ## Data model -/

/-- One conversation message as stored in the conversation JSON record.
The main endpoints attach a `timestamp`; the fallback `/chat` endpoints do
not (hence `Option`).  `generated_summary` is the flag the summary safety
net sets on the message it synthesizes (absent ≈ `false` in JSON). -/
structure Message where
  role : String
  content : String
  timestamp : Option Nat := none
  generated_summary : Bool := false
deriving DecidableEq, Repr

/-- The persisted Session aggregate (conversation JSON record). -/
structure Conversation where
  id : String
  participantId : Option String
  startedAt : Nat
  endedAt : Option Nat
  durationSeconds : Option Nat
  systemPrompt : Option String := none
  messages : List Message
deriving DecidableEq, Repr

/-- One entry of the in-memory `activeConversations` map.  The main start
endpoint stores all three fields; the fallback `/chat/start` stores only
`startedAt` (the other fields are absent on that path). -/
structure TrackerEntry where
  participantId : Option String := none
  startedAt : Nat
  lastActivity : Option Nat := none
deriving DecidableEq, Repr

/-- The `belief_change` section of a participant record (only the fields the
lifecycle core reads or writes). -/
structure BeliefChange where
  mind_change_direction : Option String := none
  mind_change_other_text : Option String := none
  chatbot_summary : Option String := none
deriving DecidableEq, Repr

/-- One entry of `participantData.chatbot_interaction.messages`. -/
structure TransformedMessage where
  sender : String
  text : String
  timestamp : Nat
deriving DecidableEq, Repr

/-- A participant JSON record (only the parts the lifecycle core touches). -/
structure Participant where
  belief_change : BeliefChange
  chatbot_interaction : List TransformedMessage := []
  updatedAt : Option Nat := none
deriving DecidableEq, Repr

/-- The state a request handler reads and writes: the in-memory tracker and
the two persisted stores. -/
structure ServerState where
  active : List (String × TrackerEntry)
  conversations : List (String × Conversation)
  participants : List (String × Participant)
deriving DecidableEq, Repr

/-- JavaScript truthiness of an optional string field (absent or `""` is falsy). -/
def optTruthy : Option String → Bool
  | none => false
  | some s => !s.isEmpty

/-! ## Summary safety net (src/database.js:2884-3088) -/

/-- `list.slice(-n)` — the last `n` elements (the whole list when shorter). -/
def lastSlice (n : Nat) (l : List α) : List α := l.drop (l.length - n)

/-- Number of matches of `/[•*-]/g` in a string. -/
def countBulletChars (content : String) : Nat :=
  (content.data.filter (fun c => c == '•' || c == '*' || c == '-')).length

/-- The bullet-structure branch of `fallbackHasExistingSummary`: the message
mentions a bullet-like character and at least two `[•*-]` matches occur. -/
def bulletStructureHit (content : String) : Bool :=
  (strIncludes content "•" || strIncludes content "*" || strIncludes content "-")
    && decide (2 ≤ countBulletChars content)

/-- The keyword branch of `fallbackHasExistingSummary`. -/
def summaryKeywordHit (content : String) : Bool :=
  lowerIncludes content "summarize" || lowerIncludes content "summary"
    || lowerIncludes content "key themes" || lowerIncludes content "based on our conversation"

/-- `fallbackHasExistingSummary(messages)` (src/database.js:2884): scan the
last five assistant messages for bullet structure or summary keywords. -/
def fallbackHasExistingSummary (messages : List Message) : Bool :=
  if messages.isEmpty then false
  else
    (lastSlice 5 (messages.filter (fun m => m.role == "assistant"))).any
      (fun msg => bulletStructureHit msg.content || summaryKeywordHit msg.content)

/-- The `switch (direction)` of `fallbackGenerateSummary` producing the fixed
belief-change sentence (`""` when the direction code is unrecognised). -/
def changeDescFor (direction : String) (otherText : Option String) : String :=
  if direction == "exists_to_not_exists" then
    "From thinking climate change exists, to thinking it does not exist"
  else if direction == "not_exists_to_exists" then
    "From thinking climate change does not exist, to thinking it exists"
  else if direction == "not_urgent_to_urgent" then
    "From thinking climate change is not urgent, to thinking it is urgent"
  else if direction == "urgent_to_not_urgent" then
    "From thinking climate change is urgent, to thinking it is not urgent"
  else if direction == "human_to_natural" then
    "From thinking climate change is human-caused, to thinking it is natural"
  else if direction == "natural_to_human" then
    "From thinking climate change is natural, to thinking it is human-caused"
  else if direction == "other" then
    (if optTruthy otherText then otherText.getD "" else "Other belief change described by participant")
  else ""

/-- The filter selecting the user messages `fallbackGenerateSummary` analyses:
user role, trimmed length above 10, not containing the end phrase. -/
def summaryUserFilter (m : Message) : Bool :=
  m.role == "user" && decide (10 < (jsTrim m.content).length)
    && !(lowerIncludes m.content "end the chat")

/-- The evidence-theme detector of `fallbackGenerateSummary`. -/
def themeEvidence (userMessages : List Message) : Bool :=
  userMessages.any (fun m =>
    lowerIncludes m.content "evidence" || lowerIncludes m.content "research"
      || lowerIncludes m.content "study" || lowerIncludes m.content "data")

/-- The personal-experience-theme detector of `fallbackGenerateSummary`. -/
def themePersonal (userMessages : List Message) : Bool :=
  userMessages.any (fun m =>
    lowerIncludes m.content "experience" || lowerIncludes m.content "personal"
      || lowerIncludes m.content "saw" || lowerIncludes m.content "noticed"
      || lowerIncludes m.content "felt")

/-- The social-influence-theme detector of `fallbackGenerateSummary`. -/
def themeSocial (userMessages : List Message) : Bool :=
  userMessages.any (fun m =>
    lowerIncludes m.content "people" || lowerIncludes m.content "family"
      || lowerIncludes m.content "friend" || lowerIncludes m.content "others")

/-- The media-theme detector of `fallbackGenerateSummary`. -/
def themeMedia (userMessages : List Message) : Bool :=
  userMessages.any (fun m =>
    lowerIncludes m.content "media" || lowerIncludes m.content "news"
      || lowerIncludes m.content "article" || lowerIncludes m.content "tv")

/-- The change-process-theme detector of `fallbackGenerateSummary`. -/
def themeChangeProcess (userMessages : List Message) : Bool :=
  userMessages.any (fun m =>
    lowerIncludes m.content "change" || lowerIncludes m.content "shift"
      || lowerIncludes m.content "different" || lowerIncludes m.content "realized")

/-- `fallbackGenerateSummary(messages, participantId)` (src/database.js:2918),
with the participant record already looked up (`readJson` of the participant
file): the profile-derived point, the five theme points in fixed order,
padding to at least two points, truncation to five. -/
def fallbackGenerateSummary (messages : List Message) (participant : Option Participant) :
    List String :=
  let userMessages := messages.filter summaryUserFilter
  let profilePoints :=
    match participant with
    | none => []
    | some p =>
      match p.belief_change.mind_change_direction with
      | none => []
      | some dir =>
        if dir.isEmpty then []
        else
          let d := changeDescFor dir p.belief_change.mind_change_other_text
          if d.isEmpty then [] else ["You described your belief change: " ++ d]
  let themePoints :=
    (if themeEvidence userMessages then
      ["You discussed the role of evidence and research in shaping your views"] else [])
    ++ (if themePersonal userMessages then
      ["You shared personal experiences that influenced your thinking"] else [])
    ++ (if themeSocial userMessages then
      ["You talked about how other people influenced your perspective"] else [])
    ++ (if themeMedia userMessages then
      ["You mentioned media sources that affected your views"] else [])
    ++ (if themeChangeProcess userMessages then
      ["You described the process of how your beliefs evolved"] else [])
  let pts := profilePoints ++ themePoints
  let pts := if pts.length < 2 then
      pts ++ ["You engaged in a conversation about your climate change belief journey"] else pts
  let pts := if pts.length < 2 then
      pts ++ ["You shared your perspective on what influences belief change"] else pts
  pts.take 5

/-- The fixed framing of the synthesized summary message. -/
def summaryText (points : List String) : String :=
  "Thank you for sharing your story with me. Let me summarize the key themes from our conversation:\n\n"
    ++ String.intercalate "\n\n" (points.map (fun p => "• " ++ p))
    ++ "\n\nThis covers the main points we discussed about your belief change journey."

/-- The assistant message the safety net appends, flagged `generated_summary`. -/
def generatedSummaryMessage (messages : List Message) (participant : Option Participant)
    (ts : Nat) : Message :=
  { role := "assistant", content := summaryText (fallbackGenerateSummary messages participant),
    timestamp := some ts, generated_summary := true }

/-- `fallbackEnsureConversationSummary(conversationId, participantId)`
(src/database.js:3041) as a transformer of the conversation store: load the
record, no-op when a summary is already detected, otherwise append the
synthesized summary message and save. -/
def fallbackEnsureConversationSummary (conversations : List (String × Conversation))
    (participants : List (String × Participant)) (conversationId participantId : String)
    (ts : Nat) : List (String × Conversation) :=
  match mapGet conversations conversationId with
  | none => conversations
  | some conv =>
    if fallbackHasExistingSummary conv.messages then conversations
    else
      let summaryMessage :=
        generatedSummaryMessage conv.messages (mapGet participants participantId) ts
      mapSet conversations conversationId
        { conv with messages := conv.messages ++ [summaryMessage] }

/-! ## Error taxonomy and responses -/

/-- The `type` tags of the JSON error responses of the lifecycle endpoints. -/
inductive ErrType where
  | validation_error
  | conversation_not_found
  | timeout
  | data_error
  | server_error
  | connection_timeout
  | network_error
  | rate_limit
  | participant_not_found
deriving DecidableEq, Repr

/-- Response of `POST /api/conversations/:id/message`. -/
inductive MsgResponse where
  | failure (e : ErrType)
  | replyOk (reply : String)
  | endedOk (reply : String)
deriving DecidableEq, Repr

/-- Response of `POST /api/conversations/start`. -/
inductive StartResponse where
  | failure (e : ErrType)
  | ok (conversationId : String)
deriving DecidableEq, Repr

/-- Response of `POST /api/conversations/:id/end`. -/
inductive EndResponse where
  | failure (e : ErrType)
  | ok
deriving DecidableEq, Repr

/-- An error thrown out of the awaited work of a turn (the reply-generation
step), as seen by the endpoint's catch block: only its message string matters. -/
structure GenError where
  message : String
deriving DecidableEq, Repr

/-- The error-message classification of the catch block of
`POST /api/conversations/:id/message` (src/database.js:2064-2088). -/
def categorizeGenError (m : String) : ErrType :=
  if strIncludes m "timeout" || strIncludes m "ECONNRESET" then .connection_timeout
  else if strIncludes m "ENOTFOUND" || strIncludes m "network" then .network_error
  else if strIncludes m "rate limit" then .rate_limit
  else .server_error

/-! ## Start endpoints -/

/-- The fixed system prompt of `POST /api/conversations/start`. -/
def systemPromptText : String :=
  "You are an AI assistant facilitating a conversation about climate change. Your role is to engage thoughtfully and ask follow-up questions to help the participant explore their views. Do not try to persuade or change their mind - instead, focus on understanding their perspective and encouraging reflection. Keep responses conversational and under 150 words."

/-- `POST /api/conversations/start` (src/database.js:1811): validate the
participant id, look the participant up, persist a fresh open conversation
(`endedAt` and `durationSeconds` both null), and register it in the tracker. -/
def postConversationsStart (st : ServerState) (participantId : Option String)
    (newConversationId : String) (now : Nat) : ServerState × StartResponse :=
  if !optTruthy participantId then (st, .failure .validation_error)
  else
    let pid := participantId.getD ""
    match mapGet st.participants pid with
    | none => (st, .failure .participant_not_found)
    | some _ =>
      let conversationData : Conversation :=
        { id := newConversationId, participantId := some pid, startedAt := now,
          endedAt := none, durationSeconds := none,
          systemPrompt := some systemPromptText, messages := [] }
      ({ st with
          conversations := mapSet st.conversations newConversationId conversationData,
          active := mapSet st.active newConversationId
            { participantId := some pid, startedAt := now, lastActivity := some now } },
        .ok newConversationId)

/-- The fallback `POST /chat/start` (src/database.js:1052): persist an initial
session with `endedAt: null` but `durationSeconds: 0`, register it in the
tracker (with only `startedAt`), then append the opening assistant line
(obtained from the external opening-line module, passed in here) and persist
again. -/
def fallbackChatStart (st : ServerState) (userId : Option String)
    (generatedParticipantId conversationId : String) (now : Nat) (opening : String) :
    ServerState × String :=
  let participantId := if optTruthy userId then userId.getD "" else generatedParticipantId
  let initial : Conversation :=
    { id := conversationId, participantId := some participantId, startedAt := now,
      endedAt := none, durationSeconds := some 0, messages := [] }
  let convs1 := mapSet st.conversations conversationId initial
  let active1 := mapSet st.active conversationId { startedAt := now }
  let initial2 := { initial with
    messages := initial.messages ++ [{ role := "assistant", content := opening }] }
  ({ st with conversations := mapSet convs1 conversationId initial2, active := active1 },
    conversationId)

/-! ## Participant update on conversation end -/

/-- The per-message transformation of the participant update blocks
(src/database.js:1978 and 2148). -/
def transformMsg (now : Nat) (m : Message) : TransformedMessage :=
  { sender := if m.role == "user" then "participant" else "chatbot",
    text := m.content,
    timestamp := m.timestamp.getD now }

/-- The `belief_change.chatbot_summary` string derived from the joined
participant-side text. -/
def chatbotSummaryText (t : String) : String :=
  "Participant discussed: " ++ jsSubstring t 200 ++ (if 200 < t.length then "..." else "")

/-- The participant-update block both end paths run inside their own
try/catch: copy the conversation into `chatbot_interaction`, derive
`chatbot_summary`, stamp `updatedAt`, save.  A missing participant record
leaves the store untouched. -/
def updateParticipantWithConversation (participants : List (String × Participant))
    (conv : Conversation) (now : Nat) : List (String × Participant) :=
  match conv.participantId with
  | none => participants
  | some pid =>
    match mapGet participants pid with
    | none => participants
    | some p =>
      let transformed := conv.messages.map (transformMsg now)
      let conversationText := String.intercalate " "
        ((transformed.filter (fun m => m.sender == "participant")).map (·.text))
      let p1 := { p with chatbot_interaction := transformed, updatedAt := some now }
      let p2 :=
        if 0 < transformed.length && !(jsTrim conversationText).isEmpty then
          { p1 with belief_change :=
              { p1.belief_change with chatbot_summary := some (chatbotSummaryText conversationText) } }
        else p1
      mapSet participants pid p2

/-! ## Turn submission and explicit end -/

/-- The default of `CHAT_DURATION_MS` (src/database.js:799): five minutes. -/
def chatDurationMsDefault : Nat := 5 * 60 * 1000

/-- The fixed closing line of the phrase-triggered end. -/
def closingText : String := "Okay — ending the chat now. Thanks for participating!"

/-- The closing assistant message of the phrase-triggered end. -/
def closingMessage (ts : Nat) : Message :=
  { role := "assistant", content := closingText, timestamp := some ts }

/-- `POST /api/conversations/:id/message` (src/database.js:1887).

Order of the handler: content validation, tracker admission, time-limit
check (evicting on expiry), then either the phrase-triggered end sequence or
the normal turn.  `genResult` is the outcome of the awaited
`generateAIResponse` call: `Except.error` models an error thrown from the
awaited work, which unwinds to the catch block before anything is persisted.
`replyTs`, `summaryTs` and `closeTs` are the `new Date()` readings taken for
the assistant reply, the synthesized summary and the closing message. -/
def postMessage (chatDurationMs : Nat) (st : ServerState) (conversationId content : String)
    (now : Nat) (genResult : Except GenError String) (replyTs summaryTs closeTs : Nat) :
    ServerState × MsgResponse :=
  if (jsTrim content).isEmpty then (st, .failure .validation_error)
  else
    match mapGet st.active conversationId with
    | none => (st, .failure .conversation_not_found)
    | some activeConv =>
      let elapsedSeconds := (now - activeConv.startedAt) / 1000
      if chatDurationMs / 1000 ≤ elapsedSeconds then
        ({ st with active := mapDelete st.active conversationId }, .failure .timeout)
      else if shouldEndNow content then
        match mapGet st.conversations conversationId with
        | none => (st, .failure .data_error)
        | some conversationData =>
          let userMessage : Message :=
            { role := "user", content := jsTrim content, timestamp := some now }
          let msgs1 := conversationData.messages ++ [userMessage]
          -- ensureSummary re-reads the persisted record (which does not yet
          -- contain `userMessage`); on reload the in-memory message list is
          -- replaced wholesale by the persisted one.
          let step :=
            if optTruthy conversationData.participantId then
              let pid := conversationData.participantId.getD ""
              let convs1 := fallbackEnsureConversationSummary st.conversations
                st.participants conversationId pid summaryTs
              match mapGet convs1 conversationId with
              | some updated => (convs1, updated.messages)
              | none => (convs1, msgs1)
            else (st.conversations, msgs1)
          let msgs2 := step.2 ++ [closingMessage closeTs]
          let convFinal := { conversationData with
            messages := msgs2,
            endedAt := some now,
            durationSeconds := some ((now - activeConv.startedAt) / 1000) }
          ({ active := mapDelete st.active conversationId,
             conversations := mapSet step.1 conversationId convFinal,
             participants := updateParticipantWithConversation st.participants convFinal now },
            .endedOk closingText)
      else
        match mapGet st.conversations conversationId with
        | none => (st, .failure .data_error)
        | some conversationData =>
          match genResult with
          | .error e => (st, .failure (categorizeGenError e.message))
          | .ok assistantReply =>
            let userMessage : Message :=
              { role := "user", content := jsTrim content, timestamp := some now }
            let assistantMessage : Message :=
              { role := "assistant", content := assistantReply, timestamp := some replyTs }
            let convFinal := { conversationData with
              messages := conversationData.messages ++ [userMessage, assistantMessage] }
            ({ st with
                active := mapSet st.active conversationId
                  { activeConv with lastActivity := some now },
                conversations := mapSet st.conversations conversationId convFinal },
              .replyOk assistantReply)

/-- `POST /api/conversations/:id/end` (src/database.js:2092): tracker
admission, load the record, compute the duration from the record's
`startedAt`, run the summary safety net (reloading the message list), set
`endedAt`/`durationSeconds`, persist, update the participant, evict.  No
closing assistant message is appended on this path. -/
def postEnd (st : ServerState) (conversationId : String) (now summaryTs : Nat) :
    ServerState × EndResponse :=
  match mapGet st.active conversationId with
  | none => (st, .failure .conversation_not_found)
  | some _activeConv =>
    match mapGet st.conversations conversationId with
    | none => (st, .failure .data_error)
    | some conversationData =>
      let durationSeconds := (now - conversationData.startedAt) / 1000
      let step :=
        if optTruthy conversationData.participantId then
          let pid := conversationData.participantId.getD ""
          let convs1 := fallbackEnsureConversationSummary st.conversations
            st.participants conversationId pid summaryTs
          match mapGet convs1 conversationId with
          | some updated => (convs1, updated.messages)
          | none => (convs1, conversationData.messages)
        else (st.conversations, conversationData.messages)
      let convFinal := { conversationData with
        messages := step.2,
        endedAt := some now,
        durationSeconds := some durationSeconds }
      ({ active := mapDelete st.active conversationId,
         conversations := mapSet step.1 conversationId convFinal,
         participants := updateParticipantWithConversation st.participants convFinal now },
        .ok)

/-! ## Reply generation (`generateAIResponse`, src/database.js:3099) -/

/-- The explicit timeout raced against the completion call: 25 seconds. -/
def apiTimeoutMs : Nat := 25000

/-- Outcome of the raced completion call: `resolved` carries
`completion.choices[0]?.message?.content` (possibly absent), `rejected` a
rejection (the timeout rejection carries the message below). -/
inductive ApiOutcome where
  | resolved (content : Option String)
  | rejected (message : String)
deriving DecidableEq, Repr

/-- The rejection message of the 25-second timeout promise. -/
def apiTimeoutMessage : String := "OpenAI API timeout"

/-- Case-sensitive `leadsWith` at every position with `\b` boundaries on both
sides, for one of the alternatives in `pats` — the word-bounded alternation
regexes without the `i` flag. -/
def scanWordsCS (pats : List (List Char)) (prev : Option Char) : List Char → Bool
  | [] => false
  | c :: cs =>
    (headBoundary prev
        && pats.any (fun p => leadsWith p (c :: cs) && tailBoundary ((c :: cs).drop p.length)))
      || scanWordsCS pats (some c) cs

/-- Word-bounded alternation with the `i` flag. -/
def scanWordsCI (pats : List (List Char)) (prev : Option Char) : List Char → Bool
  | [] => false
  | c :: cs =>
    (headBoundary prev
        && pats.any (fun p => ciLeadsWith p (c :: cs) && tailBoundary ((c :: cs).drop p.length)))
      || scanWordsCI pats (some c) cs

/-- The regex `.` — any character but a line terminator. -/
def isDotChar (c : Char) : Bool := !(c == '\n' || c == '\r')

/-- `/(.)\1{3,}/.test`: some character occurs four or more times in a row. -/
def fourRepeat : List Char → Bool
  | a :: b :: c :: d :: rest =>
    (isDotChar a && a == b && b == c && c == d) || fourRepeat (b :: c :: d :: rest)
  | _ => false

/-- Does a block of `k` dot-matching characters repeat three times at the
head of `s`? -/
def blockTriple (s : List Char) (k : Nat) : Bool :=
  decide (3 * k ≤ s.length) && decide (0 < k) && (s.take k).all isDotChar
    && s.take k == (s.drop k).take k && s.take k == (s.drop (2 * k)).take k

/-- `/(.{1,3})\1{2,}/.test`: at some position a block of one to three
characters repeats at least three times. -/
def hasTripleBlock : List Char → Bool
  | [] => false
  | c :: cs =>
    blockTriple (c :: cs) 1 || blockTriple (c :: cs) 2 || blockTriple (c :: cs) 3
      || hasTripleBlock cs

/-- The consonant-or-whitespace class `[bcdfghjklmnpqrstvwxyz\s]` with the
`i` flag. -/
def isConsonantOrSpace (c : Char) : Bool :=
  "bcdfghjklmnpqrstvwxyz".data.any (fun k => k == c.toLower) || isJsWhitespace c

/-- `isGibberish(input)` (src/database.js:3221).  `input` is the lowercased,
trimmed last user message. -/
def isGibberish (input : String) : Bool :=
  if decide (input.length < 5)
      && !scanWordsCS (["yes".data, "no".data, "maybe".data, "ok".data, "sure".data])
            none input.data then true
  else if fourRepeat input.data || hasTripleBlock input.data then true
  else if !input.isEmpty && input.data.all isConsonantOrSpace && decide (3 < input.length) then
    true
  else
    let stripped := input.data.filter (fun c => !isJsWhitespace c)
    let keysmash := decide (4 ≤ stripped.length) && stripped.all (fun c => c.isAlpha)
    if keysmash
        && !scanWordsCI (["real".data, "word".data, "here".data, "there".data,
              "when".data, "what".data, "where".data, "why".data, "how".data])
              none input.data then true
    else false

/-- The control-word list of `isConversationControl`. -/
def controlWords : List String :=
  ["nevermind", "never mind", "forget it", "skip", "next", "move on",
   "stop", "quit", "end", "done", "finished", "exit", "bye", "goodbye"]

/-- `isConversationControl(input)` (src/database.js:3248). -/
def isConversationControl (input : String) : Bool :=
  controlWords.any (fun w => strIncludes input w)

/-- The three mid-conversation fallback replies. -/
def earlyResponses : List String :=
  ["That\x27s helpful context. What specific experiences or information were most influential in shaping that view?",
   "I can see this is something you\x27ve thought about. Could you tell me more about what factors were most important to you?",
   "Thank you for sharing that perspective. Are there particular aspects of this issue that you find most compelling?"]

/-- The four late-conversation fallback replies. -/
def laterResponses : List String :=
  ["That\x27s a thoughtful point. How do you think others who disagree might respond to that argument?",
   "I appreciate you explaining your viewpoint. What questions do you think are most important to consider about this issue?",
   "That\x27s interesting. How has your thinking evolved as you\x27ve learned more about this topic?",
   "Thank you for that insight. What would you say to someone who holds the opposite view?"]

/-- `generateIntelligentFallback(messages)` (src/database.js:3174).  The
`Math.floor(Math.random() * n)` index is modelled by `pick % n`. -/
def generateIntelligentFallback (messages : List Message) (pick : Nat) : String :=
  let userInput :=
    match (messages.filter (fun m => m.role == "user")).getLast? with
    | some m => jsTrim (jsToLower m.content)
    | none => ""
  if isGibberish userInput then
    "I\x27d like to understand your perspective better. Could you share your thoughts about climate change in a way that helps me follow along?"
  else if isConversationControl userInput then
    "No problem at all. Is there anything else about climate change you\x27d like to explore or discuss?"
  else if userInput.length < 10 then
    "I\x27d love to hear more about your thoughts. Could you elaborate on your perspective about climate change?"
  else
    let conversationLength := (messages.filter (fun m => m.role == "user")).length
    if conversationLength == 1 then
      "To start: could you describe what led you to change your mind about climate change?"
    else if conversationLength ≤ 3 then
      earlyResponses.getD (pick % earlyResponses.length) ""
    else
      laterResponses.getD (pick % laterResponses.length) ""

/-- `generateAIResponse(messages, systemPrompt)` (src/database.js:3099): with
no API key, a fixed canned reply; otherwise the raced call's outcome is
inspected — a missing or empty (post-trim) completion throws internally, and
every error caught (timeout rejection included) falls back to
`generateIntelligentFallback`.  The function always returns a string; no
error escapes to the caller. -/
def generateAIResponse (apiKeyConfigured : Bool) (messages : List Message)
    (outcome : ApiOutcome) (pick : Nat) : String :=
  if !apiKeyConfigured then
    "I\x27m here to help you explore your thoughts about climate change. Could you tell me more about your perspective?"
  else
    match outcome with
    | .resolved c =>
      let response := (c.map jsTrim).getD ""
      if response.isEmpty then generateIntelligentFallback messages pick
      else response
    | .rejected _ => generateIntelligentFallback messages pick

/-! ## Startup (`initializePrisma` / `isDatabaseAvailable`, src/database.js:15-53,
src/lib/dataAccess.js:8-26) -/

/-- The configuration and environment facts startup depends on. -/
structure StartupEnv where
  /-- `process.env.DATABASE_URL` -/
  databaseUrl : Option String
  /-- `process.env.NODE_ENV === "production"` -/
  nodeEnvProduction : Bool
  /-- does `new PrismaClient(...)` succeed? -/
  clientConstructible : Bool
  /-- does `SELECT 1` against the configured store succeed? -/
  databaseReachable : Bool
deriving DecidableEq, Repr

/-- Result of `initializePrisma()`: a thrown fatal error, a constructed
client, or `null`. -/
inductive PrismaInit where
  | fatal (msg : String)
  | client
  | noClient
deriving DecidableEq, Repr

/-- `initializePrisma()` — identical logic in src/database.js:15 and
src/lib/dataAccess.js:8: throw when `DATABASE_URL` is absent in production;
otherwise construct the client (a constructor failure is caught and yields
`null`). -/
def initPrisma (env : StartupEnv) : PrismaInit :=
  match env.databaseUrl with
  | none =>
    if env.nodeEnvProduction then
      .fatal "DATABASE_URL is required in production. File storage not allowed."
    else .noClient
  | some _ => if env.clientConstructible then .client else .noClient

/-- `isDatabaseAvailable()` (src/database.js:39): calls `initializePrisma`
without catching (so its throw propagates, `Except.error` here); with a
client, reports whether `SELECT 1` succeeds. -/
def isDatabaseAvailable (env : StartupEnv) : Except String Bool :=
  match initPrisma env with
  | .fatal m => .error m
  | .noClient => .ok false
  | .client => .ok env.databaseReachable

/-- Does startup abort?  `startServer` wraps initialization in a try/catch
that exits the process on a thrown error (and the `DataAccess` constructor
runs `initializePrisma` at module load), so startup aborts exactly when
`initializePrisma` throws; an unavailable-but-configured store merely logs
and degrades to the file fallback. -/
def startupAborts (env : StartupEnv) : Bool :=
  match isDatabaseAvailable env with
  | .error _ => true
  | .ok _ => false

/-! ## Invariant vocabulary -/

/-- `endedAt` and `durationSeconds` are both null or both set. -/
def endDurationConsistent (c : Conversation) : Bool :=
  (c.endedAt.isNone && c.durationSeconds.isNone)
    || (c.endedAt.isSome && c.durationSeconds.isSome)

/-- Every persisted conversation satisfies `endDurationConsistent`. -/
def StoreConsistent (conversations : List (String × Conversation)) : Prop :=
  ∀ id c, mapGet conversations id = some c → endDurationConsistent c = true

/-- Number of auto-generated (flagged) summary messages in a message list. -/
def countGenerated (messages : List Message) : Nat :=
  (messages.filter (fun m => m.generated_summary)).length

/-- Spec-side reading of the termination-phrase rule: some case-variant of
the fixed phrase occurs contiguously in `t`, with no word character
immediately before it and none immediately after it. -/
def WordBoundedEndPhrase (t : List Char) : Prop :=
  ∃ l m r, t = l ++ m ++ r ∧ m.map Char.toLower = endPhrase
    ∧ (∀ c, l.getLast? = some c → isWordChar c = false)
    ∧ (∀ c, r.head? = some c → isWordChar c = false)

/-- A concrete open conversation used to exercise the end paths. -/
def convAtC1 : Conversation :=
  { id := "c1", participantId := some "p1", startedAt := 0,
    endedAt := none, durationSeconds := none, messages := [] }

/-- A concrete server state with the single open conversation `convAtC1`. -/
def stOpenC1 : ServerState :=
  { active := [("c1", { startedAt := 0 })],
    conversations := [("c1", convAtC1)],
    participants := [] }

/-- A startup environment with the primary store configured and production
mode on, but the store unreachable. -/
def envConfiguredUnreachable : StartupEnv :=
  { databaseUrl := some "postgresql://primary", nodeEnvProduction := true,
    clientConstructible := true, databaseReachable := false }

/-! ## Lemmas about the association-list maps -/

theorem mapGet_mapSet_self (m : List (String × α)) (k : String) (v : α) :
    mapGet (mapSet m k v) k = some v := by
  simp [mapGet, mapSet, List.lookup]

/-! ## Theorems -/


theorem lookup_filter_ne (m : List (String × α)) (k k' : String) (h : k' ≠ k) :
    (m.filter (fun p => p.1 != k)).lookup k' = m.lookup k' := by
  induction m with
  | nil => simp
  | cons a as ih =>
    obtain ⟨a1, a2⟩ := a
    by_cases ha : a1 = k
    · subst ha
      simp only [List.filter, bne_self_eq_false]
      rw [ih]
      simp [List.lookup, show (k' == a1) = false from by simp [h]]
    · simp only [List.filter, show (a1 != k) = true from by simp [ha]]
      simp only [List.lookup]
      cases hkk : k' == a1
      · simp [ih]
      · rfl

theorem mapGet_mapSet_ne (m : List (String × α)) (k k' : String) (v : α) (h : k' ≠ k) :
    mapGet (mapSet m k v) k' = mapGet m k' := by
  simp only [mapGet, mapSet, List.lookup, show (k' == k) = false from by simp [h]]
  exact lookup_filter_ne m k k' h

theorem mapGet_mapDelete_self (m : List (String × α)) (k : String) :
    mapGet (mapDelete m k) k = none := by
  induction m with
  | nil => rfl
  | cons a as ih =>
    obtain ⟨a1, a2⟩ := a
    by_cases ha : a1 = k
    · simpa [mapDelete, List.filter, ha] using ih
    · have hkk : (k == a1) = false := by simp [Ne.symm ha]
      simpa [mapDelete, mapGet, List.filter,
        show (a1 != k) = true from by simp [ha], List.lookup, hkk] using ih

theorem mapGet_mapDelete_ne (m : List (String × α)) (k k' : String) (h : k' ≠ k) :
    mapGet (mapDelete m k) k' = mapGet m k' :=
  lookup_filter_ne m k k' h

theorem leadsWith_append (pat l l' : List Char) (h : leadsWith pat l = true) :
    leadsWith pat (l ++ l') = true := by
  induction pat generalizing l with
  | nil => simp [leadsWith]
  | cons p ps ih =>
    cases l with
    | nil => simp [leadsWith] at h
    | cons c cs =>
      simp only [List.cons_append, leadsWith, Bool.and_eq_true] at h ⊢
      exact ⟨h.1, ih cs h.2⟩

theorem hasSubList_nil_pat (l : List Char) : hasSubList [] l = true := by
  cases l <;> simp [hasSubList, leadsWith]

theorem hasSubList_append_left (pat l l' : List Char) (h : hasSubList pat l = true) :
    hasSubList pat (l ++ l') = true := by
  induction l with
  | nil =>
    simp only [hasSubList, List.isEmpty_iff] at h
    subst h
    exact hasSubList_nil_pat l'
  | cons c cs ih =>
    simp only [List.cons_append, hasSubList, Bool.or_eq_true] at h ⊢
    rcases h with h | h
    · exact Or.inl (leadsWith_append pat (c :: cs) l' h)
    · exact Or.inr (ih h)

theorem string_data_append (a b : String) : (a ++ b).data = a.data ++ b.data := by
  cases a; cases b; rfl

theorem lowerIncludes_append_left (a b pat : String) (h : lowerIncludes a pat = true) :
    lowerIncludes (a ++ b) pat = true := by
  unfold lowerIncludes at h ⊢
  rw [string_data_append, List.map_append]
  exact hasSubList_append_left _ _ _ h

theorem summaryKeywordHit_summaryText (points : List String) :
    summaryKeywordHit (summaryText points) = true := by
  unfold summaryKeywordHit summaryText
  simp only [Bool.or_eq_true]
  left; left; left
  exact lowerIncludes_append_left _ _ _ (lowerIncludes_append_left _ _ _ (by decide))

theorem any_lastSlice_concat {α : Type} (p : α → Bool) (l : List α) (x : α)
    (n : Nat) (hn : 0 < n) (hx : p x = true) :
    (lastSlice n (l ++ [x])).any p = true := by
  unfold lastSlice
  rw [List.drop_append_eq_append_drop]
  have h0 : (l ++ [x]).length - n - l.length = 0 := by
    simp only [List.length_append, List.length_singleton]
    omega
  rw [h0]
  simp [hx]

theorem hasExisting_append_generated (msgs src : List Message)
    (participant : Option Participant) (ts : Nat) :
    fallbackHasExistingSummary (msgs ++ [generatedSummaryMessage src participant ts]) = true := by
  unfold fallbackHasExistingSummary
  rw [if_neg (by simp)]
  rw [List.filter_append]
  have hg : List.filter (fun m => m.role == "assistant")
      [generatedSummaryMessage src participant ts] = [generatedSummaryMessage src participant ts] := by
    simp [generatedSummaryMessage]
  rw [hg]
  apply any_lastSlice_concat _ _ _ 5 (by omega)
  simp [generatedSummaryMessage, summaryKeywordHit_summaryText]

theorem ensure_not_found (convs : List (String × Conversation))
    (parts : List (String × Participant)) (cid pid : String) (ts : Nat)
    (h : mapGet convs cid = none) :
    fallbackEnsureConversationSummary convs parts cid pid ts = convs := by
  simp [fallbackEnsureConversationSummary, h]

theorem ensure_already_has (convs : List (String × Conversation))
    (parts : List (String × Participant)) (cid pid : String) (ts : Nat)
    (conv : Conversation) (h : mapGet convs cid = some conv)
    (hs : fallbackHasExistingSummary conv.messages = true) :
    fallbackEnsureConversationSummary convs parts cid pid ts = convs := by
  simp [fallbackEnsureConversationSummary, h, hs]

theorem ensure_appends (convs : List (String × Conversation))
    (parts : List (String × Participant)) (cid pid : String) (ts : Nat)
    (conv : Conversation) (h : mapGet convs cid = some conv)
    (hs : fallbackHasExistingSummary conv.messages = false) :
    fallbackEnsureConversationSummary convs parts cid pid ts =
      mapSet convs cid { conv with messages := conv.messages
        ++ [generatedSummaryMessage conv.messages (mapGet parts pid) ts] } := by
  simp [fallbackEnsureConversationSummary, h, hs]

theorem ensure_idem (convs : List (String × Conversation))
    (parts : List (String × Participant)) (cid pid : String) (t1 t2 : Nat) :
    fallbackEnsureConversationSummary
        (fallbackEnsureConversationSummary convs parts cid pid t1) parts cid pid t2
      = fallbackEnsureConversationSummary convs parts cid pid t1 := by
  cases hc : mapGet convs cid with
  | none => rw [ensure_not_found convs parts cid pid t1 hc, ensure_not_found convs parts cid pid t2 hc]
  | some conv =>
    cases hs : fallbackHasExistingSummary conv.messages with
    | true =>
      rw [ensure_already_has convs parts cid pid t1 conv hc hs,
        ensure_already_has convs parts cid pid t2 conv hc hs]
    | false =>
      rw [ensure_appends convs parts cid pid t1 conv hc hs]
      exact ensure_already_has _ parts cid pid t2 _ (mapGet_mapSet_self _ _ _)
        (hasExisting_append_generated _ _ _ _)

theorem countGenerated_append (a b : List Message) :
    countGenerated (a ++ b) = countGenerated a + countGenerated b := by
  simp [countGenerated, List.filter_append]

/-- C7: the summary safety net is idempotent: a second invocation on the same
conversation is a no-op (the synthesized summary is itself detected as an
existing adequate summary), and a conversation with no flagged summary and no
detected summary ends up with exactly one auto-generated summary message after
two invocations, not two. -/
theorem ensureSummary_idempotent (convs : List (String × Conversation))
    (parts : List (String × Participant)) (cid pid : String) (t1 t2 : Nat)
    (conv : Conversation) (hconv : mapGet convs cid = some conv)
    (hcnt : countGenerated conv.messages = 0)
    (hno : fallbackHasExistingSummary conv.messages = false) :
    (∀ (cs : List (String × Conversation)) (ps : List (String × Participant))
        (i p : String) (a b : Nat),
        fallbackEnsureConversationSummary
            (fallbackEnsureConversationSummary cs ps i p a) ps i p b
          = fallbackEnsureConversationSummary cs ps i p a)
    ∧ ∃ conv2,
        mapGet (fallbackEnsureConversationSummary
            (fallbackEnsureConversationSummary convs parts cid pid t1) parts cid pid t2) cid
          = some conv2
        ∧ countGenerated conv2.messages = 1 := by
  refine ⟨ensure_idem, ?_⟩
  rw [ensure_idem, ensure_appends convs parts cid pid t1 conv hconv hno]
  refine ⟨_, mapGet_mapSet_self _ _ _, ?_⟩
  simp only [countGenerated_append, hcnt]
  simp [countGenerated, generatedSummaryMessage]

/-- Witness for `ensureSummary_idempotent` at a concrete one-conversation
store. -/
theorem ensureSummary_idempotent_witness :
    ∃ conv2,
      mapGet (fallbackEnsureConversationSummary
          (fallbackEnsureConversationSummary [("c1", convAtC1)] [] "c1" "p1" 10) [] "c1" "p1" 20) "c1"
        = some conv2
      ∧ countGenerated conv2.messages = 1 :=
  (ensureSummary_idempotent [("c1", convAtC1)] [] "c1" "p1" 10 20 convAtC1
    (by decide) (by decide) (by decide)).2

theorem ciLeadsWith_iff (p : List Char) : ∀ s, ciLeadsWith p s = true ↔
    ∃ m r, s = m ++ r ∧ m.map Char.toLower = p.map Char.toLower := by
  induction p with
  | nil =>
    intro s
    simp only [ciLeadsWith, List.map_nil]
    constructor
    · intro _
      exact ⟨[], s, rfl, rfl⟩
    · intro _
      trivial
  | cons p ps ih =>
    intro s
    cases s with
    | nil =>
      simp only [ciLeadsWith, List.map_cons]
      constructor
      · intro h; cases h
      · rintro ⟨m, r, hmr, hmap⟩
        cases m with
        | nil => simp at hmap
        | cons a as => simp at hmr
    | cons c cs =>
      simp only [ciLeadsWith, Bool.and_eq_true, beq_iff_eq, List.map_cons]
      rw [ih cs]
      constructor
      · rintro ⟨h1, m, r, hmr, hmap⟩
        exact ⟨c :: m, r, by simp [hmr], by simp [hmap, h1]⟩
      · rintro ⟨m, r, hmr, hmap⟩
        cases m with
        | nil => simp at hmap
        | cons a as =>
          simp only [List.cons_append, List.cons.injEq] at hmr
          simp only [List.map_cons, List.cons.injEq] at hmap
          obtain ⟨hac, hcs⟩ := hmr
          subst hac
          exact ⟨hmap.1.symm, as, r, hcs, hmap.2⟩

theorem endPhrase_toLower : endPhrase.map Char.toLower = endPhrase := by decide

theorem matchHere_iff (s : List Char) : matchHere s = true ↔
    ∃ m r, s = m ++ r ∧ m.map Char.toLower = endPhrase ∧ tailBoundary r = true := by
  unfold matchHere
  rw [Bool.and_eq_true, ciLeadsWith_iff]
  constructor
  · rintro ⟨⟨m, r, rfl, hmap⟩, htb⟩
    have hlen : m.length = endPhrase.length := by
      have := congrArg List.length hmap
      simpa using this
    rw [← hlen, List.drop_left] at htb
    rw [endPhrase_toLower] at hmap
    exact ⟨m, r, rfl, hmap, htb⟩
  · rintro ⟨m, r, rfl, hmap, htb⟩
    have hlen : m.length = endPhrase.length := by
      have := congrArg List.length hmap
      simpa using this
    rw [← hlen, List.drop_left]
    exact ⟨⟨m, r, rfl, by rw [hmap, endPhrase_toLower]⟩, htb⟩

theorem getLast?_cons_isSome (a : α) (l : List α) : ∃ x, (a :: l).getLast? = some x := by
  induction l generalizing a with
  | nil => exact ⟨a, rfl⟩
  | cons b bs ih =>
    rw [List.getLast?_cons_cons]
    exact ih b

theorem scanEndPhrase_iff (t : List Char) : ∀ prev, scanEndPhrase prev t = true ↔
    ∃ l m r, t = l ++ m ++ r ∧ m.map Char.toLower = endPhrase
      ∧ (match l.getLast? with
          | none => headBoundary prev = true
          | some c => isWordChar c = false)
      ∧ tailBoundary r = true := by
  induction t with
  | nil =>
    intro prev
    simp only [scanEndPhrase]
    constructor
    · intro h; cases h
    · rintro ⟨l, m, r, heq, hmap, _, _⟩
      exfalso
      have hm : m.length = 12 := by
        have := congrArg List.length hmap
        simpa [endPhrase] using this
      have hlen : 0 = l.length + m.length + r.length := by
        have := congrArg List.length heq
        simpa [Nat.add_assoc] using this
      omega
  | cons c cs ih =>
    intro prev
    simp only [scanEndPhrase, Bool.or_eq_true, Bool.and_eq_true]
    constructor
    · rintro (⟨hb, hm⟩ | hs)
      · obtain ⟨m, r, heq, hmap, htb⟩ := (matchHere_iff _).mp hm
        exact ⟨[], m, r, by simpa using heq, hmap, hb, htb⟩
      · obtain ⟨l, m, r, heq, hmap, hleft, htb⟩ := (ih (some c)).mp hs
        refine ⟨c :: l, m, r, by simp [heq], hmap, ?_, htb⟩
        cases l with
        | nil =>
          simp only [List.getLast?_singleton]
          simpa [headBoundary] using hleft
        | cons d ds =>
          obtain ⟨x, hx⟩ := getLast?_cons_isSome d ds
          rw [List.getLast?_cons_cons, hx]
          rw [hx] at hleft
          exact hleft
    · rintro ⟨l, m, r, heq, hmap, hleft, htb⟩
      cases l with
      | nil =>
        left
        simp only [List.nil_append] at heq
        exact ⟨hleft, (matchHere_iff _).mpr ⟨m, r, heq, hmap, htb⟩⟩
      | cons d ds =>
        right
        have hdc : c = d ∧ cs = ds ++ m ++ r := by simpa [Nat.add_assoc] using heq
        obtain ⟨hdc1, hdc2⟩ := hdc
        subst hdc1
        apply (ih (some c)).mpr
        refine ⟨ds, m, r, hdc2, hmap, ?_, htb⟩
        cases ds with
        | nil =>
          simp only [List.getLast?_singleton] at hleft
          simpa [headBoundary] using hleft
        | cons e es =>
          obtain ⟨x, hx⟩ := getLast?_cons_isSome e es
          rw [List.getLast?_cons_cons, hx] at hleft
          rw [hx]
          exact hleft

/-- C6: the termination detector matches the fixed phrase case-insensitively,
anywhere in the trimmed input, on word boundaries only; in particular
"please end the chat now" triggers and "endings of the chat show" does not. -/
theorem shouldEndNow_characterization :
    (∀ text : String, shouldEndNow text = true ↔ WordBoundedEndPhrase (jsTrimList text.data))
    ∧ shouldEndNow "please end the chat now" = true
    ∧ shouldEndNow "endings of the chat show" = false := by
  refine ⟨?_, by decide, by decide⟩
  intro text
  unfold shouldEndNow WordBoundedEndPhrase
  rw [scanEndPhrase_iff _ none]
  constructor
  · rintro ⟨l, m, r, h1, h2, h3, h4⟩
    refine ⟨l, m, r, h1, h2, ?_, ?_⟩
    · intro c hc
      rw [hc] at h3
      exact h3
    · intro c hc
      cases r with
      | nil => simp at hc
      | cons d ds =>
        simp only [List.head?_cons, Option.some.injEq] at hc
        subst hc
        simpa [tailBoundary] using h4
  · rintro ⟨l, m, r, h1, h2, h3, h4⟩
    refine ⟨l, m, r, h1, h2, ?_, ?_⟩
    · cases hgl : l.getLast? with
      | none => rfl
      | some c => exact h3 c hgl
    · cases r with
      | nil => rfl
      | cons d ds =>
        simpa [tailBoundary] using h4 d rfl

theorem categorizeGenError_cases (m : String) :
    categorizeGenError m = .connection_timeout ∨ categorizeGenError m = .network_error
      ∨ categorizeGenError m = .rate_limit ∨ categorizeGenError m = .server_error := by
  unfold categorizeGenError
  split_ifs <;> simp

/-- C10: validation precedes admission control: a missing or whitespace-only
message body yields a validation error and leaves the state untouched, for
every state — in particular also when the session id is absent from the
tracker. -/
theorem message_validation_first (chatDurationMs : Nat) (st : ServerState)
    (conversationId content : String) (now : Nat) (genResult : Except GenError String)
    (t1 t2 t3 : Nat) (hempty : (jsTrim content).isEmpty = true) :
    postMessage chatDurationMs st conversationId content now genResult t1 t2 t3
      = (st, .failure .validation_error) := by
  simp [postMessage, hempty]

/-- Witness for `message_validation_first`: a whitespace-only body on a state
that does not track the session id still yields the validation error. -/
theorem message_validation_first_witness :
    postMessage 300000 { active := [], conversations := [], participants := [] }
        "c1" "   " 5 (.ok "hi") 6 7 8
      = ({ active := [], conversations := [], participants := [] },
          .failure .validation_error) :=
  message_validation_first 300000 _ "c1" "   " 5 (.ok "hi") 6 7 8 (by decide)

/-- C5: a turn with non-empty text for a session id absent from the tracker
(never opened or already closed) yields the not-found error and mutates
nothing: the state is returned unchanged. -/
theorem message_unknown_session (chatDurationMs : Nat) (st : ServerState)
    (conversationId content : String) (now : Nat) (genResult : Except GenError String)
    (t1 t2 t3 : Nat) (hvalid : (jsTrim content).isEmpty = false)
    (habs : mapGet st.active conversationId = none) :
    postMessage chatDurationMs st conversationId content now genResult t1 t2 t3
      = (st, .failure .conversation_not_found) := by
  simp [postMessage, hvalid, habs]

/-- Witness for `message_unknown_session` on a state whose store still holds
a closed record for the id. -/
theorem message_unknown_session_witness :
    postMessage 300000 { active := [], conversations := [("c1", convAtC1)], participants := [] }
        "c1" "hello there" 5 (.ok "hi") 6 7 8
      = ({ active := [], conversations := [("c1", convAtC1)], participants := [] },
          .failure .conversation_not_found) :=
  message_unknown_session 300000 _ "c1" "hello there" 5 (.ok "hi") 6 7 8
    (by decide) (by decide)

/-- C4: a turn submitted at or past the configured duration limit yields the
timeout error (a distinct category from not-found) and evicts the session
from the tracker, and every subsequent valid submission to the same id on the
resulting state yields the not-found error. -/
theorem message_time_limit (chatDurationMs : Nat) (st : ServerState)
    (conversationId content : String) (now : Nat) (genResult : Except GenError String)
    (t1 t2 t3 : Nat) (entry : TrackerEntry)
    (hvalid : (jsTrim content).isEmpty = false)
    (hact : mapGet st.active conversationId = some entry)
    (hexp : chatDurationMs / 1000 ≤ (now - entry.startedAt) / 1000) :
    postMessage chatDurationMs st conversationId content now genResult t1 t2 t3
        = ({ st with active := mapDelete st.active conversationId }, .failure .timeout)
      ∧ ErrType.timeout ≠ ErrType.conversation_not_found
      ∧ mapGet (mapDelete st.active conversationId) conversationId = none
      ∧ (∀ (content2 : String) (now2 : Nat) (gen2 : Except GenError String) (u1 u2 u3 : Nat),
          (jsTrim content2).isEmpty = false →
          postMessage chatDurationMs { st with active := mapDelete st.active conversationId }
              conversationId content2 now2 gen2 u1 u2 u3
            = ({ st with active := mapDelete st.active conversationId },
                .failure .conversation_not_found)) := by
  refine ⟨?_, by simp, mapGet_mapDelete_self _ _, ?_⟩
  · simp [postMessage, hvalid, hact, hexp]
  · intro content2 now2 gen2 u1 u2 u3 hvalid2
    simp [postMessage, hvalid2, mapGet_mapDelete_self]

/-- Witness for `message_time_limit` at the default five-minute limit. -/
theorem message_time_limit_witness :
    postMessage 300000 stOpenC1 "c1" "hello there" 300000 (.ok "hi") 1 2 3
        = ({ stOpenC1 with active := mapDelete stOpenC1.active "c1" }, .failure .timeout)
      ∧ ErrType.timeout ≠ ErrType.conversation_not_found
      ∧ mapGet (mapDelete stOpenC1.active "c1") "c1" = none
      ∧ (∀ (content2 : String) (now2 : Nat) (gen2 : Except GenError String) (u1 u2 u3 : Nat),
          (jsTrim content2).isEmpty = false →
          postMessage 300000 { stOpenC1 with active := mapDelete stOpenC1.active "c1" }
              "c1" content2 now2 gen2 u1 u2 u3
            = ({ stOpenC1 with active := mapDelete stOpenC1.active "c1" },
                .failure .conversation_not_found)) :=
  message_time_limit 300000 stOpenC1 "c1" "hello there" 300000 (.ok "hi") 1 2 3
    { startedAt := 0 } (by decide) (by decide) (by decide)

/-- C3: when the awaited reply-generation work of a normal turn throws, the
handler's catch block maps the error message to one of the four user-facing
categories and the request leaves the entire state — tracker and both stores —
exactly as it was: the user message of the failed attempt is never persisted. -/
theorem message_generation_failure_atomic (chatDurationMs : Nat) (st : ServerState)
    (conversationId content : String) (now : Nat) (e : GenError) (t1 t2 t3 : Nat)
    (entry : TrackerEntry) (conv : Conversation)
    (hvalid : (jsTrim content).isEmpty = false)
    (hact : mapGet st.active conversationId = some entry)
    (hlive : (now - entry.startedAt) / 1000 < chatDurationMs / 1000)
    (hphrase : shouldEndNow content = false)
    (hconv : mapGet st.conversations conversationId = some conv) :
    postMessage chatDurationMs st conversationId content now (.error e) t1 t2 t3
        = (st, .failure (categorizeGenError e.message))
      ∧ (categorizeGenError e.message = .connection_timeout
          ∨ categorizeGenError e.message = .network_error
          ∨ categorizeGenError e.message = .rate_limit
          ∨ categorizeGenError e.message = .server_error) := by
  refine ⟨?_, categorizeGenError_cases e.message⟩
  simp [postMessage, hvalid, hact, hphrase, hconv, Nat.not_le.mpr hlive]

/-- Witness for `message_generation_failure_atomic`: a rate-limit failure on
an open one-message-old session. -/
theorem message_generation_failure_atomic_witness :
    postMessage 300000 stOpenC1 "c1" "hello there" 1000 (.error ⟨"rate limit reached"⟩) 1 2 3
        = (stOpenC1, .failure (categorizeGenError "rate limit reached"))
      ∧ (categorizeGenError "rate limit reached" = .connection_timeout
          ∨ categorizeGenError "rate limit reached" = .network_error
          ∨ categorizeGenError "rate limit reached" = .rate_limit
          ∨ categorizeGenError "rate limit reached" = .server_error) :=
  message_generation_failure_atomic 300000 stOpenC1 "c1" "hello there" 1000
    ⟨"rate limit reached"⟩ 1 2 3 { startedAt := 0 } convAtC1
    (by decide) (by decide) (by decide) (by decide) (by decide)

theorem earlyResponses_getD_ne (k : Nat) (hk : k < 3) : earlyResponses.getD k "" ≠ "" := by
  interval_cases k <;> decide

theorem laterResponses_getD_ne (k : Nat) (hk : k < 4) : laterResponses.getD k "" ≠ "" := by
  interval_cases k <;> decide

/-- C8: a reply-generation call whose raced completion is rejected (the
25-second timeout included) returns the intelligent-fallback reply — always a
non-empty string — to the turn submitter; the total function raises nothing. -/
theorem generation_timeout_fallback (messages : List Message) (pick : Nat) :
    generateAIResponse true messages (.rejected apiTimeoutMessage) pick
        = generateIntelligentFallback messages pick
      ∧ generateIntelligentFallback messages pick ≠ ""
      ∧ apiTimeoutMs = 25000 := by
  refine ⟨rfl, ?_, rfl⟩
  simp only [generateIntelligentFallback]
  split_ifs <;>
    first
      | decide
      | exact earlyResponses_getD_ne _ (Nat.mod_lt _ (by decide))
      | exact laterResponses_getD_ne _ (Nat.mod_lt _ (by decide))

/-- Counterexample to C9 as stated: in production mode with the primary store
configured (`DATABASE_URL` present) but unreachable, initialization raises no
fatal error — availability merely reports `false` and the system degrades to
the file fallback. -/
theorem startup_unreachable_no_abort :
    startupAborts envConfiguredUnreachable = false
      ∧ isDatabaseAvailable envConfiguredUnreachable = .ok false :=
  ⟨rfl, rfl⟩

/-- C9 (amended): startup aborts exactly when the primary store is not
configured at all (`DATABASE_URL` absent) in production mode; that is the
only failure condition that raises at initialization. -/
theorem startup_abort_characterization (env : StartupEnv) :
    startupAborts env = true ↔ env.nodeEnvProduction = true ∧ env.databaseUrl = none := by
  obtain ⟨url, prod, ctor, reach⟩ := env
  cases url <;> cases prod <;> cases ctor <;> cases reach <;>
    simp [startupAborts, isDatabaseAvailable, initPrisma]

theorem endDurationConsistent_update_messages (c : Conversation) (msgs : List Message) :
    endDurationConsistent { c with messages := msgs } = endDurationConsistent c := rfl

theorem storeConsistent_mapSet (m : List (String × Conversation)) (k : String)
    (v : Conversation) (hm : StoreConsistent m) (hv : endDurationConsistent v = true) :
    StoreConsistent (mapSet m k v) := by
  intro id c hc
  by_cases hid : id = k
  · subst hid
    rw [mapGet_mapSet_self] at hc
    cases hc
    exact hv
  · rw [mapGet_mapSet_ne _ _ _ _ hid] at hc
    exact hm id c hc

theorem storeConsistent_ensure (convs : List (String × Conversation))
    (parts : List (String × Participant)) (cid pid : String) (ts : Nat)
    (h : StoreConsistent convs) :
    StoreConsistent (fallbackEnsureConversationSummary convs parts cid pid ts) := by
  cases hc : mapGet convs cid with
  | none => rw [ensure_not_found _ _ _ _ _ hc]; exact h
  | some conv =>
    cases hs : fallbackHasExistingSummary conv.messages with
    | true => rw [ensure_already_has _ _ _ _ _ conv hc hs]; exact h
    | false =>
      rw [ensure_appends _ _ _ _ _ conv hc hs]
      apply storeConsistent_mapSet _ _ _ h
      rw [endDurationConsistent_update_messages]
      exact h cid conv hc

theorem storeConsistent_postConversationsStart (st : ServerState)
    (participantId : Option String) (nid : String) (now : Nat)
    (h : StoreConsistent st.conversations) :
    StoreConsistent (postConversationsStart st participantId nid now).1.conversations := by
  by_cases h1 : optTruthy participantId = true
  · cases h2 : mapGet st.participants (participantId.getD "") with
    | none => simpa [postConversationsStart, h1, h2] using h
    | some p =>
      simp only [postConversationsStart, h1, h2, Bool.not_true, Bool.false_eq_true,
        if_false]
      apply storeConsistent_mapSet _ _ _ h
      simp [endDurationConsistent]
  · replace h1 : optTruthy participantId = false := by simpa using h1
    simpa [postConversationsStart, h1] using h

theorem storeConsistent_postMessage (cd : Nat) (st : ServerState)
    (cid content : String) (now : Nat) (gen : Except GenError String) (t1 t2 t3 : Nat)
    (h : StoreConsistent st.conversations) :
    StoreConsistent (postMessage cd st cid content now gen t1 t2 t3).1.conversations := by
  by_cases h1 : (jsTrim content).isEmpty = true
  · simpa [postMessage, h1] using h
  · replace h1 : (jsTrim content).isEmpty = false := by simpa using h1
    cases h2 : mapGet st.active cid with
    | none => simpa [postMessage, h1, h2] using h
    | some entry =>
      by_cases h3 : cd / 1000 ≤ (now - entry.startedAt) / 1000
      · simpa [postMessage, h1, h2, h3] using h
      · cases h4 : shouldEndNow content with
        | true =>
          cases h5 : mapGet st.conversations cid with
          | none => simpa [postMessage, h1, h2, h3, h4, h5] using h
          | some conv =>
            simp only [postMessage, h1, h2, h3, h4, h5]
            simp only [Bool.false_eq_true, if_false, if_neg h3, if_pos rfl]
            apply storeConsistent_mapSet
            · split
              · split
                · exact storeConsistent_ensure _ _ _ _ _ h
                · exact storeConsistent_ensure _ _ _ _ _ h
              · exact h
            · simp [endDurationConsistent]
        | false =>
          cases h5 : mapGet st.conversations cid with
          | none => simpa [postMessage, h1, h2, h3, h4, h5] using h
          | some conv =>
            cases gen with
            | error e => simpa [postMessage, h1, h2, h3, h4, h5] using h
            | ok reply =>
              simp only [postMessage, h1, h2, h3, h4, h5]
              simp only [Bool.false_eq_true, if_false, if_neg h3]
              apply storeConsistent_mapSet _ _ _ h
              rw [endDurationConsistent_update_messages]
              exact h cid conv h5

theorem storeConsistent_postEnd (st : ServerState) (cid : String) (now ts : Nat)
    (h : StoreConsistent st.conversations) :
    StoreConsistent (postEnd st cid now ts).1.conversations := by
  cases h2 : mapGet st.active cid with
  | none => simpa [postEnd, h2] using h
  | some entry =>
    cases h5 : mapGet st.conversations cid with
    | none => simpa [postEnd, h2, h5] using h
    | some conv =>
      simp only [postEnd, h2, h5]
      apply storeConsistent_mapSet
      · split
        · split
          · exact storeConsistent_ensure _ _ _ _ _ h
          · exact storeConsistent_ensure _ _ _ _ _ h
        · exact h
      · simp [endDurationConsistent]

/-- Counterexample to C1 as stated: the fallback chat start
(`POST /chat/start`) persists a session whose `durationSeconds` is already
set to `0` while `endedAt` is still null — exactly one of the two fields is
set. -/
theorem fallback_chat_start_inconsistent :
    ((mapGet (fallbackChatStart { active := [], conversations := [], participants := [] }
        none "p-gen" "c1" 1000 "Hi!").1.conversations "c1").map endDurationConsistent)
      = some false := by decide

/-- C1 (amended): every operation of the main lifecycle
(`POST /api/conversations/start`, turn submission, phrase-triggered end,
explicit end) preserves the both-null-or-both-set invariant on
`endedAt`/`durationSeconds` of every persisted session; the fallback
`POST /chat/start` is the exception, initialising `durationSeconds` to `0`
with `endedAt` null. -/
theorem lifecycle_preserves_end_duration (st : ServerState)
    (h : StoreConsistent st.conversations) :
    (∀ (pid : Option String) (nid : String) (now : Nat),
        StoreConsistent (postConversationsStart st pid nid now).1.conversations)
    ∧ (∀ (cd : Nat) (cid content : String) (now : Nat) (gen : Except GenError String)
        (a b c : Nat),
        StoreConsistent (postMessage cd st cid content now gen a b c).1.conversations)
    ∧ (∀ (cid : String) (now ts : Nat),
        StoreConsistent (postEnd st cid now ts).1.conversations) :=
  ⟨fun pid nid now => storeConsistent_postConversationsStart st pid nid now h,
   fun cd cid content now gen a b c => storeConsistent_postMessage cd st cid content now gen a b c h,
   fun cid now ts => storeConsistent_postEnd st cid now ts h⟩

/-- Witness for `lifecycle_preserves_end_duration` at the concrete
one-session state `stOpenC1`. -/
theorem lifecycle_preserves_end_duration_witness :
    StoreConsistent (postConversationsStart stOpenC1 (some "p1") "c2" 5).1.conversations
    ∧ StoreConsistent (postMessage 300000 stOpenC1 "c1" "hi there friend" 5
        (.ok "reply") 1 2 3).1.conversations
    ∧ StoreConsistent (postEnd stOpenC1 "c1" 5 6).1.conversations := by
  have hbase : StoreConsistent stOpenC1.conversations := by
    intro id c hc
    simp only [stOpenC1, mapGet, List.lookup] at hc
    by_cases hid : (id == "c1") = true
    · rw [hid] at hc
      cases hc
      decide
    · rw [Bool.eq_false_iff.mpr hid] at hc
      cases hc
  exact ⟨(lifecycle_preserves_end_duration stOpenC1 hbase).1 (some "p1") "c2" 5,
    (lifecycle_preserves_end_duration stOpenC1 hbase).2.1 300000 "c1" "hi there friend" 5
      (.ok "reply") 1 2 3,
    (lifecycle_preserves_end_duration stOpenC1 hbase).2.2 "c1" 5 6⟩

theorem countGenerated_summary_closing (src : List Message) (participant : Option Participant)
    (ts tc : Nat) :
    countGenerated [generatedSummaryMessage src participant ts, closingMessage tc] = 1 := by
  simp [countGenerated, generatedSummaryMessage, closingMessage]

theorem countGenerated_summary_only (src : List Message) (participant : Option Participant)
    (ts : Nat) :
    countGenerated [generatedSummaryMessage src participant ts] = 1 := by
  simp [countGenerated, generatedSummaryMessage]

/-- C2 (amended): closing an open session whose record has no detected and no
flagged summary yet: both the phrase-triggered end and the explicit end leave
exactly one auto-generated summary message, set the end timestamp and evict
the id from the tracker; the phrase-triggered end additionally appends the
fixed closing assistant message directly after the summary, while the
explicit end appends no closing message. -/
theorem end_paths_close_session (chatDurationMs : Nat) (st : ServerState)
    (cid content : String) (now t1 t2 t3 now2 t4 : Nat) (gen : Except GenError String)
    (entry : TrackerEntry) (conv : Conversation) (pid : String)
    (hvalid : (jsTrim content).isEmpty = false)
    (hphrase : shouldEndNow content = true)
    (hact : mapGet st.active cid = some entry)
    (hlive : (now - entry.startedAt) / 1000 < chatDurationMs / 1000)
    (hconv : mapGet st.conversations cid = some conv)
    (hpid : conv.participantId = some pid)
    (hpidne : pid.isEmpty = false)
    (hno : fallbackHasExistingSummary conv.messages = false)
    (hcnt : countGenerated conv.messages = 0) :
    (postMessage chatDurationMs st cid content now gen t1 t2 t3).2 = .endedOk closingText
    ∧ mapGet (postMessage chatDurationMs st cid content now gen t1 t2 t3).1.conversations cid
        = some { conv with
            messages := conv.messages
              ++ [generatedSummaryMessage conv.messages (mapGet st.participants pid) t2,
                  closingMessage t3],
            endedAt := some now,
            durationSeconds := some ((now - entry.startedAt) / 1000) }
    ∧ mapGet (postMessage chatDurationMs st cid content now gen t1 t2 t3).1.active cid = none
    ∧ countGenerated (conv.messages
        ++ [generatedSummaryMessage conv.messages (mapGet st.participants pid) t2,
            closingMessage t3]) = 1
    ∧ (postEnd st cid now2 t4).2 = .ok
    ∧ mapGet (postEnd st cid now2 t4).1.conversations cid
        = some { conv with
            messages := conv.messages
              ++ [generatedSummaryMessage conv.messages (mapGet st.participants pid) t4],
            endedAt := some now2,
            durationSeconds := some ((now2 - conv.startedAt) / 1000) }
    ∧ mapGet (postEnd st cid now2 t4).1.active cid = none
    ∧ countGenerated (conv.messages
        ++ [generatedSummaryMessage conv.messages (mapGet st.participants pid) t4]) = 1 := by
  have htruthy : optTruthy (some pid) = true := by
    simp [optTruthy, hpidne]
  have hens2 := ensure_appends st.conversations st.participants cid pid t2 conv hconv hno
  have hens4 := ensure_appends st.conversations st.participants cid pid t4 conv hconv hno
  have key : postMessage chatDurationMs st cid content now gen t1 t2 t3
      = ({ active := mapDelete st.active cid,
           conversations := mapSet
             (mapSet st.conversations cid { conv with messages := conv.messages
                ++ [generatedSummaryMessage conv.messages (mapGet st.participants pid) t2] })
             cid
             { conv with
               messages := (conv.messages
                  ++ [generatedSummaryMessage conv.messages (mapGet st.participants pid) t2])
                  ++ [closingMessage t3],
               endedAt := some now,
               durationSeconds := some ((now - entry.startedAt) / 1000) },
           participants := updateParticipantWithConversation st.participants
             { conv with
               messages := (conv.messages
                  ++ [generatedSummaryMessage conv.messages (mapGet st.participants pid) t2])
                  ++ [closingMessage t3],
               endedAt := some now,
               durationSeconds := some ((now - entry.startedAt) / 1000) } now },
          .endedOk closingText) := by
    simp only [postMessage, hvalid, hact, hphrase, hconv, htruthy, hpid, Option.getD_some,
      Nat.not_le.mpr hlive, hens2, mapGet_mapSet_self, Bool.false_eq_true, if_false,
      if_true, if_pos rfl]
  have key2 : postEnd st cid now2 t4
      = ({ active := mapDelete st.active cid,
           conversations := mapSet
             (mapSet st.conversations cid { conv with messages := conv.messages
                ++ [generatedSummaryMessage conv.messages (mapGet st.participants pid) t4] })
             cid
             { conv with
               messages := conv.messages
                  ++ [generatedSummaryMessage conv.messages (mapGet st.participants pid) t4],
               endedAt := some now2,
               durationSeconds := some ((now2 - conv.startedAt) / 1000) },
           participants := updateParticipantWithConversation st.participants
             { conv with
               messages := conv.messages
                  ++ [generatedSummaryMessage conv.messages (mapGet st.participants pid) t4],
               endedAt := some now2,
               durationSeconds := some ((now2 - conv.startedAt) / 1000) } now2 },
          .ok) := by
    simp only [postEnd, hact, hconv, htruthy, hpid, Option.getD_some, hens4,
      mapGet_mapSet_self, if_true]
  refine ⟨?_, ?_, ?_, ?_, ?_, ?_, ?_, ?_⟩
  · rw [key]
  · rw [key, mapGet_mapSet_self]
    simp [List.append_assoc]
  · rw [key]
    exact mapGet_mapDelete_self _ _
  · rw [countGenerated_append, hcnt, countGenerated_summary_closing]
  · rw [key2]
  · rw [key2]
    exact mapGet_mapSet_self _ _ _
  · rw [key2]
    exact mapGet_mapDelete_self _ _
  · rw [countGenerated_append, hcnt, countGenerated_summary_only]

/-- Counterexample to C2 as stated: running the explicit end on a concrete
open session succeeds and ends the session, yet the persisted record contains
no message whose content is the fixed closing line — the closing assistant
message is appended only by the phrase-triggered path. -/
theorem explicit_end_appends_no_closing :
    (postEnd stOpenC1 "c1" 5000 5000).2 = .ok
    ∧ ((mapGet (postEnd stOpenC1 "c1" 5000 5000).1.conversations "c1").map
        (fun c => c.messages.any (fun m => m.content == closingText))) = some false :=
  ⟨rfl, by decide⟩

/-- Witness for `end_paths_close_session` on the concrete state `stOpenC1`. -/
theorem end_paths_close_session_witness :
    (postMessage 300000 stOpenC1 "c1" "end the chat" 1000 (.ok "r") 1 2 3).2
        = .endedOk closingText
    ∧ mapGet (postMessage 300000 stOpenC1 "c1" "end the chat" 1000
          (.ok "r") 1 2 3).1.conversations "c1"
        = some { convAtC1 with
            messages := convAtC1.messages
              ++ [generatedSummaryMessage convAtC1.messages (mapGet stOpenC1.participants "p1") 2,
                  closingMessage 3],
            endedAt := some 1000,
            durationSeconds := some ((1000 - 0) / 1000) }
    ∧ mapGet (postMessage 300000 stOpenC1 "c1" "end the chat" 1000
          (.ok "r") 1 2 3).1.active "c1" = none
    ∧ countGenerated (convAtC1.messages
        ++ [generatedSummaryMessage convAtC1.messages (mapGet stOpenC1.participants "p1") 2,
            closingMessage 3]) = 1
    ∧ (postEnd stOpenC1 "c1" 5000 4).2 = .ok
    ∧ mapGet (postEnd stOpenC1 "c1" 5000 4).1.conversations "c1"
        = some { convAtC1 with
            messages := convAtC1.messages
              ++ [generatedSummaryMessage convAtC1.messages (mapGet stOpenC1.participants "p1") 4],
            endedAt := some 5000,
            durationSeconds := some ((5000 - 0) / 1000) }
    ∧ mapGet (postEnd stOpenC1 "c1" 5000 4).1.active "c1" = none
    ∧ countGenerated (convAtC1.messages
        ++ [generatedSummaryMessage convAtC1.messages (mapGet stOpenC1.participants "p1") 4]) = 1 :=
  end_paths_close_session 300000 stOpenC1 "c1" "end the chat" 1000 1 2 3 5000 4 (.ok "r")
    { startedAt := 0 } convAtC1 "p1" (by decide) (by decide) (by decide) (by decide)
    (by decide) rfl (by decide) (by decide) (by decide)

end ClimateStudy
